import Mathlib

/-!
Verification development for the frappe_whatsapp booking core.

This file shallowly embeds the parts of the repository that the checked
properties talk about:

* `message_debouncer.py` — the per-sender debounce queue (`queue_message`,
  `process_queued_messages`), modelled both as an atomic (serialized)
  operation and as a sequence of atomic Redis accesses so that
  interleavings of concurrent `queue_message` calls can be examined.
* `whatsapp_message.py` — the deterministic keyword classifiers
  (`is_confirmation_message`, `is_change_request`, `is_general_question`)
  and the booking-workflow turn handler `handle_text_message_ai`,
  modelled as a pure function `runTurn` over an environment that carries
  the stored draft and the results of the external LLM calls
  (intent detection, field extraction, intent analysis) plus the
  success/failure outcome of each external API call.
* `agents/rag_chain.py` — `has_cancel_intent`, `validate_booking_timeslot`
  and `extract_booking_details` (merge of extractor output into the draft
  and default application).

Conventions: Python dict values are modelled with `Option`; Python
truthiness of a string/number field is `truthyS`/`truthyN`; an absent key
is `none`.  Wall-clock data (TTLs, `confirmed_at`) and logging are not
modelled.  LLM-backed helpers are inputs of the model (oracles), while
every deterministic helper is translated from the source.
-/

namespace FrappeWhatsapp

/-! ## Debounce coalescer (`message_debouncer.py`) -/

namespace Debouncer

/-- Shared Redis state for one sender: the pending message batch
(`whatsapp_message_queue:<id>`), the scheduling guard
(`whatsapp_processing_scheduled:<id>`), and the number of deferred
`process_queued_messages` jobs that have been enqueued. -/
structure RState where
  queue : List Nat := []
  flag : Bool := false
  scheduled : Nat := 0
deriving DecidableEq, Repr

/-- Local state of one in-flight `queue_message` call: its program
counter, the copy of the queue it read (`queued_messages`), and the copy
of the guard it read (`is_scheduled`). -/
structure TState where
  pc : Nat := 0
  lq : List Nat := []
  lf : Bool := false
deriving DecidableEq, Repr

/-- One atomic Redis access of `queue_message(m)`
(message_debouncer.py lines 74-106):
pc 0 reads the queue, pc 1 writes back the queue with `m` appended,
pc 2 reads the scheduling guard, pc 3 sets the guard and enqueues the
deferred job only if the guard read at pc 2 was unset. -/
def stepThread (m : Nat) (t : TState) (s : RState) : TState × RState :=
  match t.pc with
  | 0 => ({ t with pc := 1, lq := s.queue }, s)
  | 1 => ({ t with pc := 2 }, { s with queue := t.lq ++ [m] })
  | 2 => ({ t with pc := 3, lf := s.flag }, s)
  | 3 => ({ t with pc := 4 },
          if t.lf then s else { s with flag := true, scheduled := s.scheduled + 1 })
  | _ => (t, s)

/-- A full `queue_message(m)` call executed without interruption
(all four accesses back to back). -/
def runAlone (m : Nat) (s : RState) : RState :=
  let r0 := stepThread m {} s
  let r1 := stepThread m r0.1 r0.2
  let r2 := stepThread m r1.1 r1.2
  (stepThread m r2.1 r2.2).2

/-- State of two concurrent `queue_message` calls for the same sender. -/
structure Sys2 where
  t1 : TState := {}
  t2 : TState := {}
  sh : RState := {}
deriving DecidableEq, Repr

/-- Let thread 1 (enqueuing `m1`) or thread 2 (enqueuing `m2`) perform
its next atomic access. -/
def step2 (m1 m2 : Nat) (c : Sys2) (who : Bool) : Sys2 :=
  if who then
    let r := stepThread m2 c.t2 c.sh
    { c with t2 := r.1, sh := r.2 }
  else
    let r := stepThread m1 c.t1 c.sh
    { c with t1 := r.1, sh := r.2 }

/-- Run the two threads under an interleaving schedule
(`false` = thread 1 moves, `true` = thread 2 moves). -/
def run2 (m1 m2 : Nat) (sched : List Bool) : Sys2 :=
  sched.foldl (step2 m1 m2) {}

/-- `process_queued_messages` batch pickup
(message_debouncer.py lines 154-166): read the whole queue, then delete
the queue and the scheduling guard; the read batch is what gets handed
downstream. -/
def processBatch (s : RState) : List Nat × RState :=
  (s.queue, { s with queue := [], flag := false })

/-- Enqueue every message of `ms`, each `queue_message` call running
serially (no interleaving). -/
def runSerial (ms : List Nat) : RState :=
  ms.foldl (fun s m => runAlone m s) {}

end Debouncer

/-! ## Batch dispatch in `process_queued_messages`
(message_debouncer.py lines 174-257) -/

/-- The data of one queued message that the dispatch code inspects.
`interactive_id`, `is_reply` and `reply_to_message_id` stand for the
fields read back from the original WhatsApp Message document. -/
structure QMsg where
  content_type : String := "text"
  message : String := ""
  interactive_id : String := ""
  is_reply : Bool := false
  reply_to_message_id : Option String := none
deriving DecidableEq, Repr

/-- A downstream handler invocation made by `process_queued_messages`.
`textTurn s` stands for the pair of calls
`handle_text_message(s, ...)` / `handle_text_message_ai(s, ...)` made
with the combined text `s`. -/
inductive DispatchEvent where
  | frontdesk (message : String)
  | textTurn (combined : String)
  | interactive (interactiveId : String)
  | templateReply (message : String) (replyTo : String)
deriving DecidableEq, Repr

/-- Python string truthiness for an optional string field. -/
def truthyS : Option String → Bool
  | none => false
  | some s => s ≠ ""

/-- Python truthiness for an optional numeric field. -/
def truthyN : Option Nat → Bool
  | none => false
  | some n => n ≠ 0

/-- The handler (if any) a single non-text message is replayed through
(message_debouncer.py lines 237-257): a `flow` message goes to
`handle_interactive_message`; a `button` message goes to
`handle_template_message_reply` only when it is a reply with a truthy
`reply_to_message_id`; every other non-text message gets no handler. -/
def nonTextHandler (m : QMsg) : Option DispatchEvent :=
  if m.content_type = "flow" then
    some (.interactive m.interactive_id)
  else if m.content_type = "button" then
    if m.is_reply && truthyS m.reply_to_message_id then
      some (.templateReply m.message (m.reply_to_message_id.getD ""))
    else
      none
  else
    none

/-- The `for msg in non_text_messages` loop, emitting handler calls in
arrival order. -/
def dispatchNonTextLoop : List QMsg → List DispatchEvent
  | [] => []
  | m :: rest =>
    (match nonTextHandler m with
     | some e => [e]
     | none => []) ++ dispatchNonTextLoop rest

/-- Batch dispatch of `process_queued_messages` after the batch was read
(message_debouncer.py lines 174-257).  Frontdesk leads get each message
handled individually; otherwise all `text` messages are joined with
newlines into one combined input handed to the text handlers, and the
non-text messages are run through `dispatchNonTextLoop`.  An empty batch
is a no-op. -/
def process_batch (isFrontdesk : Bool) (msgs : List QMsg) : List DispatchEvent :=
  if msgs.isEmpty then []
  else if isFrontdesk then
    msgs.map (fun m => .frontdesk m.message)
  else
    let texts := msgs.filter (fun m => m.content_type = "text")
    let textEvents :=
      if texts.isEmpty then []
      else [DispatchEvent.textTurn (String.intercalate "\n" (texts.map QMsg.message))]
    textEvents ++ dispatchNonTextLoop (msgs.filter (fun m => ¬ m.content_type = "text"))

/-- Declarative rendering of the (amended) dispatch contract, to be
compared with `process_batch`: the text messages of the batch — in
arrival order, whether or not contiguous — are joined with newline
separators into a single text-handler input; each `flow` message and
each reply `button` message yields exactly its own handler call, in
arrival order; other non-text messages yield no call. -/
def dispatchContract (msgs : List QMsg) : List DispatchEvent :=
  let texts := (msgs.filter (fun m => m.content_type = "text")).map QMsg.message
  (if texts.isEmpty then []
   else [DispatchEvent.textTurn (String.intercalate "\n" texts)])
    ++ (msgs.filter (fun m => ¬ m.content_type = "text")).filterMap nonTextHandler

/-! ## Keyword classifiers (`whatsapp_message.py`, `rag_chain.py`)

The Python string operations are modelled structurally over the
character list of a `String` (Python `str.lower` is modelled on the
ASCII range). -/

/-- Substring test on character lists. -/
def containsList (s pat : List Char) : Bool :=
  if pat.isPrefixOf s then true
  else
    match s with
    | [] => false
    | _ :: t => containsList t pat

/-- Substring test: Python `pat in s`. -/
def containsSubstr (s pat : String) : Bool :=
  containsList s.data pat.data

/-- Python `str.lower`. -/
def lowerStr (s : String) : String :=
  ⟨s.data.map Char.toLower⟩

/-- Python `str.strip`. -/
def stripStr (s : String) : String :=
  ⟨((s.data.dropWhile Char.isWhitespace).reverse.dropWhile Char.isWhitespace).reverse⟩

/-- Python `message.lower().strip()`. -/
def lowerTrim (s : String) : String :=
  stripStr (lowerStr s)

/-- Python `p.startswith`-style test: `p` is a prefix of `s`. -/
def isPrefixStr (p s : String) : Bool :=
  p.data.isPrefixOf s.data

/-- `confirmation_keywords` (whatsapp_message.py lines 45-50). -/
def confirmationKeywords : List String :=
  ["yes", "yup", "yeah", "yep", "correct", "right",
   "confirm", "confirmed", "ok", "okay", "proceed",
   "continue", "good", "looks good", "all good",
   "betul", "ya", "ok", "okie", "boleh"]

/-- `change_keywords` (whatsapp_message.py lines 89-93). -/
def changeKeywords : List String :=
  ["no", "nope", "wrong", "change", "edit", "modify",
   "incorrect", "not correct", "mistake", "error",
   "tidak", "tak", "salah", "ubah", "tukar"]

/-- Does the lowered message start with `keyword` followed by a space or
punctuation (whatsapp_message.py lines 66-69)? -/
def startsWithKeyword (ml k : String) : Bool :=
  isPrefixStr (k ++ " ") ml || isPrefixStr (k ++ ",") ml ||
  isPrefixStr (k ++ ".") ml || isPrefixStr (k ++ "!") ml

/-- `is_confirmation_message` (whatsapp_message.py lines 32-74): exact
keyword match, or — only for messages of at most 30 characters — a
keyword at the start followed by space/punctuation. -/
def is_confirmation_message (message : String) : Bool :=
  let ml := lowerTrim message
  if ml ∈ confirmationKeywords then true
  else if ml.length ≤ 30 then
    confirmationKeywords.any (startsWithKeyword ml)
  else false

/-- `is_change_request` (whatsapp_message.py lines 76-117). -/
def is_change_request (message : String) : Bool :=
  let ml := lowerTrim message
  if ml ∈ changeKeywords then true
  else if ml.length ≤ 30 then
    changeKeywords.any (startsWithKeyword ml)
  else false

/-- `question_keywords` (whatsapp_message.py lines 132-139). -/
def questionKeywords : List String :=
  ["what", "when", "where", "how", "why", "who", "which",
   "can you", "could you", "do you", "does", "is there", "are there",
   "tell me", "explain", "what is", "what are", "how much", "how long",
   "price", "cost", "location", "outlet", "operating hours", "open",
   "available", "offer", "provide", "difference", "compare",
   "package", "promotion", "discount", "membership"]

/-- `is_general_question` (whatsapp_message.py lines 120-150). -/
def is_general_question (message : String) : Bool :=
  let ml := lowerTrim message
  let hasQuestionMark := containsSubstr message "?"
  let hasQuestionWord := questionKeywords.any (fun k => containsSubstr ml k)
  let isConf := is_confirmation_message message || is_change_request message
  (hasQuestionMark || hasQuestionWord) && !isConf

/-- `cancel_intent_keywords` (rag_chain.py lines 1698-1706). -/
def cancelIntentKeywords : List String :=
  ["cancel", "cancel booking", "cancel appointment", "cancel my booking",
   "cancel my appointment", "want to cancel", "need to cancel",
   "would like to cancel", "have to cancel", "must cancel",
   "delete booking", "remove booking", "delete appointment",
   "can\x27t make it", "cannot make it", "unable to make it",
   "won\x27t be able", "will not make it", "have to skip",
   "batalkan", "batal booking", "batal appointment"]

/-- `has_cancel_intent` (rag_chain.py lines 1687-1709): any cancel
keyword occurs in the lowered (unstripped) message. -/
def has_cancel_intent (message : String) : Bool :=
  cancelIntentKeywords.any (fun k => containsSubstr (lowerStr message) k)

/-- `non_confirmation_patterns` (whatsapp_message.py lines 1261-1265). -/
def nonConfirmationPatterns : List String :=
  ["link", "share", "send", "tell me", "what", "where", "how", "when",
   "outlet", "location", "address", "price", "package", "promotion",
   "discount", "treatment", "massage", "service", "available"]

/-- The `is_about_other_topic` check while awaiting confirmation
(whatsapp_message.py lines 1257-1268). -/
def isAboutOtherTopic (message : String) : Bool :=
  nonConfirmationPatterns.any (fun k => containsSubstr (lowerTrim message) k)

/-! ## Timeslot validator (`rag_chain.py` lines 1712-1779) -/

/-- Split a character list on a separator character (semantics of
Python `str.split` with an explicit separator: the empty input yields
one empty component). -/
def splitOnChar (sep : Char) : List Char → List (List Char)
  | [] => [[]]
  | c :: rest =>
    if c = sep then [] :: splitOnChar sep rest
    else
      match splitOnChar sep rest with
      | [] => [[c]]
      | h :: t => (c :: h) :: t

/-- Digit-string value. -/
def digitsToNat : List Char → Nat :=
  List.foldl (fun a c => a * 10 + (c.toNat - 48)) 0

/-- One numeric component accepted by `strptime` for `%H`/`%M`/`%S`:
one or two digits. -/
def parseField (l : List Char) : Option Nat :=
  if (1 ≤ l.length ∧ l.length ≤ 2) ∧ l.all Char.isDigit then some (digitsToNat l)
  else none

/-- `datetime.strptime(timeslot, str-of-H-M-S)` as a pure parser: three
colon-separated 1-2 digit components in range. -/
def parseTimeHMS (s : String) : Option (Nat × Nat × Nat) :=
  match splitOnChar ':' s.data with
  | [hs, ms, ss] =>
    match parseField hs, parseField ms, parseField ss with
    | some h, some m, some sec =>
      if h < 24 ∧ m < 60 ∧ sec < 60 then some (h, m, sec) else none
    | _, _, _ => none
  | _ => none

/-- Strict lexicographic comparison of two times of day. -/
def timeBefore (h1 m1 s1 h2 m2 s2 : Nat) : Bool :=
  if h1 ≠ h2 then h1 < h2
  else if m1 ≠ m2 then m1 < m2
  else s1 < s2

/-- Zero-padded two-digit rendering. -/
def pad2 (n : Nat) : String :=
  (if n < 10 then "0" else "") ++ toString n

/-- `strftime` 12-hour rendering used in the validator messages
(zero-padded hour, minutes, AM/PM). -/
def fmt12 (h m : Nat) : String :=
  let h12 := if h % 12 = 0 then 12 else h % 12
  pad2 h12 ++ ":" ++ pad2 m ++ " " ++ (if h < 12 then "AM" else "PM")

/-- The user-facing outcome text of `validate_booking_timeslot`,
abstracted to its kind plus the displayed time. -/
inductive TsMsg where
  | empty
  | provideTime
  | suggestPM (display : String)
  | outOfHours (display : String)
  | formatHelp
deriving DecidableEq, Repr

/-- Result record of `validate_booking_timeslot`. -/
structure TsResult where
  valid : Bool
  msg : TsMsg
deriving DecidableEq, Repr

/-- `validate_booking_timeslot` (rag_chain.py lines 1712-1779):
operating window 11:00:00-23:30:00 inclusive; an out-of-window time
whose hour is 1-10 gets a suggestion of the 12-hours-later equivalent
when that equivalent is in-window; malformed input is invalid with a
format-help message; a falsy input asks for a time. -/
def validate_booking_timeslot (timeslot : Option String) : TsResult :=
  match timeslot with
  | none => ⟨false, .provideTime⟩
  | some ts =>
    if ts = "" then ⟨false, .provideTime⟩
    else
      match parseTimeHMS ts with
      | none => ⟨false, .formatHelp⟩
      | some (h, m, sec) =>
        if timeBefore h m sec 11 0 0 || timeBefore 23 30 0 h m sec then
          if 1 ≤ h ∧ h ≤ 10 then
            let ph := h + 12
            if !(timeBefore ph m sec 11 0 0 || timeBefore 23 30 0 ph m sec) then
              ⟨false, .suggestPM (fmt12 ph m)⟩
            else ⟨false, .outOfHours (fmt12 h m)⟩
          else ⟨false, .outOfHours (fmt12 h m)⟩
        else ⟨true, .empty⟩

/-! ## Booking draft and field extraction (`rag_chain.py` lines 1443-1561) -/

/-- The flat map of booking fields a draft can carry.  `none` models an
absent key. -/
structure FieldMap where
  customer_name : Option String := none
  phone : Option String := none
  outlet : Option String := none
  booking_date : Option String := none
  timeslot : Option String := none
  pax : Option Nat := none
  treatment_type : Option String := none
  session : Option Nat := none
  preferred_masseur : Option String := none
  third_party_voucher : Option String := none
  using_package : Option String := none
deriving DecidableEq, Repr

/-- A stored draft: the booking fields plus the workflow flags carried
in the same dict (`awaiting_confirmation`, `awaiting_update_confirmation`,
`confirmed`, `booking_reference`, `pending_update_fields`).  The
`confirmed_at` timestamp is not modelled. -/
structure Draft where
  fields : FieldMap := {}
  awaiting_confirmation : Bool := false
  awaiting_update_confirmation : Bool := false
  confirmed : Bool := false
  booking_reference : Option String := none
  pending_update_fields : Option FieldMap := none
deriving DecidableEq, Repr

/-- LLM-merge of one string field (rag_chain.py lines 1471-1473): the
extractor value replaces the prior value only when truthy and not the
literal string "null". -/
def pickLlmS (base v : Option String) : Option String :=
  if truthyS v && v ≠ some "null" then v else base

/-- LLM-merge of one numeric field: the extractor value replaces the
prior value only when truthy. -/
def pickLlmN (base v : Option Nat) : Option Nat :=
  if truthyN v then v else base

/-- Regex-fallback merge of one string field (rag_chain.py lines
1488-1490, 1498-1500): fill only a key that is absent, with a truthy
value. -/
def pickFbS (base v : Option String) : Option String :=
  if base = none && truthyS v then v else base

/-- Regex-fallback merge of one numeric field. -/
def pickFbN (base v : Option Nat) : Option Nat :=
  if base = none && truthyN v then v else base

/-- Merge the LLM extraction output over the existing data. -/
def mergeLlm (base llm : FieldMap) : FieldMap where
  customer_name := pickLlmS base.customer_name llm.customer_name
  phone := pickLlmS base.phone llm.phone
  outlet := pickLlmS base.outlet llm.outlet
  booking_date := pickLlmS base.booking_date llm.booking_date
  timeslot := pickLlmS base.timeslot llm.timeslot
  pax := pickLlmN base.pax llm.pax
  treatment_type := pickLlmS base.treatment_type llm.treatment_type
  session := pickLlmN base.session llm.session
  preferred_masseur := pickLlmS base.preferred_masseur llm.preferred_masseur
  third_party_voucher := pickLlmS base.third_party_voucher llm.third_party_voucher
  using_package := pickLlmS base.using_package llm.using_package

/-- Merge the regex-fallback output over the existing data. -/
def mergeFallback (base fb : FieldMap) : FieldMap where
  customer_name := pickFbS base.customer_name fb.customer_name
  phone := pickFbS base.phone fb.phone
  outlet := pickFbS base.outlet fb.outlet
  booking_date := pickFbS base.booking_date fb.booking_date
  timeslot := pickFbS base.timeslot fb.timeslot
  pax := pickFbN base.pax fb.pax
  treatment_type := pickFbS base.treatment_type fb.treatment_type
  session := pickFbN base.session fb.session
  preferred_masseur := pickFbS base.preferred_masseur fb.preferred_masseur
  third_party_voucher := pickFbS base.third_party_voucher fb.third_party_voucher
  using_package := pickFbS base.using_package fb.using_package

/-- The default treatment text (rag_chain.py line 1515). -/
def defaultTreatment : String :=
  "You may select treatment at the outlet, but will be subject to availability"

/-- Default application (rag_chain.py lines 1502-1521): each optional
field gets its default whenever it is absent or falsy. -/
def applyDefaults (m : FieldMap) : FieldMap :=
  { m with
    pax := if truthyN m.pax then m.pax else some 1
    session := if truthyN m.session then m.session else some 90
    treatment_type :=
      if truthyS m.treatment_type then m.treatment_type else some defaultTreatment
    using_package :=
      if truthyS m.using_package then m.using_package else some "no" }

/-- Missing required-field labels (rag_chain.py lines 1524-1547):
a field counts as missing exactly when its key is absent. -/
def missingLabels (m : FieldMap) : List String :=
  (if m.outlet = none then ["Outlet"] else []) ++
  (if m.booking_date = none then ["Preferred Date"] else []) ++
  (if m.timeslot = none then ["Preferred Time"] else []) ++
  (if m.customer_name = none then ["Name"] else []) ++
  (if m.phone = none then ["Phone Number (linked to package)"] else [])

/-- Result record of `extract_booking_details`. -/
structure ExtractResult where
  data : Draft
  missing_fields : List String
  is_complete : Bool
deriving DecidableEq, Repr

/-- `extract_booking_details` (rag_chain.py lines 1443-1553).  `existing`
is the stored pending data (`none` for an empty store), `llm` is the
cleaned output of the LLM extraction pass (`none` when the LLM path is
unavailable or raised), `fb` is the regex-fallback output used in that
case.  The merged map gets the defaults applied unconditionally, then
the required fields are checked. -/
def extract_booking_details (existing : Option Draft) (llm : Option FieldMap)
    (fb : FieldMap) : ExtractResult :=
  let baseDraft := existing.getD {}
  let merged :=
    match llm with
    | some l => mergeLlm baseDraft.fields l
    | none => mergeFallback baseDraft.fields fb
  let finalFields := applyDefaults merged
  let missing := missingLabels finalFields
  { data := { baseDraft with fields := finalFields }
    missing_fields := missing
    is_complete := missing.isEmpty }

/-! ## The workflow turn (`handle_text_message_ai`, whatsapp_message.py
lines 818-1584) -/

/-- `dict.update`: every key present in `u` overwrites the base. -/
def applyUpdates (base u : FieldMap) : FieldMap where
  customer_name := if u.customer_name.isSome then u.customer_name else base.customer_name
  phone := if u.phone.isSome then u.phone else base.phone
  outlet := if u.outlet.isSome then u.outlet else base.outlet
  booking_date := if u.booking_date.isSome then u.booking_date else base.booking_date
  timeslot := if u.timeslot.isSome then u.timeslot else base.timeslot
  pax := if u.pax.isSome then u.pax else base.pax
  treatment_type := if u.treatment_type.isSome then u.treatment_type else base.treatment_type
  session := if u.session.isSome then u.session else base.session
  preferred_masseur :=
    if u.preferred_masseur.isSome then u.preferred_masseur else base.preferred_masseur
  third_party_voucher :=
    if u.third_party_voucher.isSome then u.third_party_voucher else base.third_party_voucher
  using_package := if u.using_package.isSome then u.using_package else base.using_package

/-- The `if field in booking_data: booking_data[field] = new_value` loop
(whatsapp_message.py lines 1426-1429): an update lands only on a key the
draft already has. -/
def applyPresentUpdates (base u : FieldMap) : FieldMap where
  customer_name :=
    if u.customer_name.isSome && base.customer_name.isSome then u.customer_name
    else base.customer_name
  phone := if u.phone.isSome && base.phone.isSome then u.phone else base.phone
  outlet := if u.outlet.isSome && base.outlet.isSome then u.outlet else base.outlet
  booking_date :=
    if u.booking_date.isSome && base.booking_date.isSome then u.booking_date
    else base.booking_date
  timeslot := if u.timeslot.isSome && base.timeslot.isSome then u.timeslot else base.timeslot
  pax := if u.pax.isSome && base.pax.isSome then u.pax else base.pax
  treatment_type :=
    if u.treatment_type.isSome && base.treatment_type.isSome then u.treatment_type
    else base.treatment_type
  session := if u.session.isSome && base.session.isSome then u.session else base.session
  preferred_masseur :=
    if u.preferred_masseur.isSome && base.preferred_masseur.isSome then u.preferred_masseur
    else base.preferred_masseur
  third_party_voucher :=
    if u.third_party_voucher.isSome && base.third_party_voucher.isSome then
      u.third_party_voucher
    else base.third_party_voucher
  using_package :=
    if u.using_package.isSome && base.using_package.isSome then u.using_package
    else base.using_package

/-- The six fields compared to detect a changed booking while awaiting
confirmation (whatsapp_message.py lines 1203-1216). -/
def keyFieldsChanged (old new : FieldMap) : Bool :=
  old.booking_date ≠ new.booking_date || old.timeslot ≠ new.timeslot ||
  old.outlet ≠ new.outlet || old.pax ≠ new.pax ||
  old.treatment_type ≠ new.treatment_type || old.session ≠ new.session

/-- Result of `detect_update_intent_with_llm` (oracle input). -/
structure UpdateDetection where
  is_update : Bool := false
  updated_fields : FieldMap := {}

/-- Result of `analyze_confirmation_response_intent` (oracle input):
whether the intent is `update_fields`, and the field updates. -/
structure IntentAnalysis where
  intent_update_fields : Bool := false
  field_updates : FieldMap := {}

/-- Everything one turn of `handle_text_message_ai` consumes: the stored
pending data, the inbound (coalesced) message, the LLM-backed
classification results, the extraction oracles, and the outcome of each
external booking API call (`true` = the call returns, `false` = it
raises). -/
structure Env where
  pending : Option Draft := none
  message : String := ""
  wantsToBook : Bool := false
  hasSpecificDetails : Bool := false
  updateDetect : UpdateDetection := {}
  intentAnalysis : IntentAnalysis := {}
  llm : Option FieldMap := none
  fb : FieldMap := {}
  commitApiOk : Bool := true
  updateApiOk : Bool := true
  cancelApiOk : Bool := true
  commitReference : String := ""

/-- An outbound message queued during the turn, abstracted to its kind. -/
inductive OutMsg where
  | cancelSuccess
  | cancelError
  | updateSuccess
  | updateError
  | updateCancelledAck
  | updateReminder
  | askWhatToUpdate
  | updateConfirmPrompt
  | timeslotInvalid (m : TsMsg)
  | confirmPrompt
  | updatedSummaryPrompt
  | commitSuccess
  | commitError
  | changeAck
  | missingFieldsPrompt
  | ragAnswer
deriving DecidableEq, Repr

/-- Observable outcome of one turn: which external booking APIs were
invoked, the stored pending data afterwards (`none` = cleared), and the
outbound messages. -/
structure TurnResult where
  commitCalled : Bool := false
  updateCalled : Bool := false
  cancelCalled : Bool := false
  saved : Option Draft := none
  sent : List OutMsg := []
deriving DecidableEq, Repr

/-- Falling through to the RAG chain (whatsapp_message.py lines
1531-1575): the stored data is untouched and the answer is sent. -/
def ragResult (pending : Option Draft) : TurnResult :=
  { saved := pending, sent := [.ragAnswer] }

/-- The extraction pass the turn performs over the stored data
(whatsapp_message.py line 1159). -/
def erOf (env : Env) (pending : Option Draft) : ExtractResult :=
  extract_booking_details pending env.llm env.fb

/-- The stored `awaiting_confirmation` flag (default `False`). -/
def storedAwaiting (pending : Option Draft) : Bool :=
  (pending.map Draft.awaiting_confirmation).getD false

/-- `booking_changed` (whatsapp_message.py lines 1200-1216): only
computed when pending data exists with `awaiting_confirmation` set. -/
def bookingChanged (env : Env) (pending : Option Draft) : Bool :=
  storedAwaiting pending &&
    keyFieldsChanged (pending.getD {}).fields (erOf env pending).data.fields

/-- The local `awaiting_confirmation` of the turn
(whatsapp_message.py lines 1220-1228): reset when the booking changed. -/
def awaitingOf (env : Env) (pending : Option Draft) : Bool :=
  if bookingChanged env pending then false else storedAwaiting pending

/-- The draft stored when the merged timeslot is out of hours
(whatsapp_message.py lines 1188-1190): the invalid timeslot is
removed. -/
def clearTimeslot (d : Draft) : Draft :=
  { d with fields := { d.fields with timeslot := none } }

/-- Out-of-hours outcome in the booking flow (whatsapp_message.py lines
1180-1194). -/
def timeslotInvalidResult (env : Env) (pending : Option Draft) : TurnResult :=
  { saved := some (clearTimeslot (erOf env pending).data)
    sent := [.timeslotInvalid
              (validate_booking_timeslot (erOf env pending).data.fields.timeslot).msg] }

/-- Showing the booking confirmation prompt and recording
`awaiting_confirmation = True` (whatsapp_message.py lines 1296-1317 and
1472-1514). -/
def confirmPromptResult (env : Env) (pending : Option Draft) : TurnResult :=
  { saved := some { (erOf env pending).data with awaiting_confirmation := true }
    sent := [.confirmPrompt] }

/-- The booking-commit call (whatsapp_message.py lines 1348-1404): on
success the confirmed draft with its reference is stored; on failure
the pending data is cleared and an apologetic error is sent. -/
def commitResult (env : Env) (pending : Option Draft) : TurnResult :=
  if env.commitApiOk then
    { commitCalled := true
      saved := some { (erOf env pending).data with
                      confirmed := true
                      booking_reference := some env.commitReference }
      sent := [.commitSuccess] }
  else
    { commitCalled := true, saved := none, sent := [.commitError] }

/-- Change-request handling while awaiting confirmation
(whatsapp_message.py lines 1406-1470): apply supplied field edits onto
present keys and re-show, or ask what to change with the flag
cleared. -/
def changeResult (env : Env) (pending : Option Draft) : TurnResult :=
  if env.intentAnalysis.intent_update_fields &&
      env.intentAnalysis.field_updates ≠ ({} : FieldMap) then
    { saved := some { (erOf env pending).data with
                      fields := applyPresentUpdates (erOf env pending).data.fields
                        env.intentAnalysis.field_updates
                      awaiting_confirmation := true }
      sent := [.updatedSummaryPrompt] }
  else
    { saved := some { (erOf env pending).data with awaiting_confirmation := false }
      sent := [.changeAck] }

/-- Response classification while awaiting confirmation
(whatsapp_message.py lines 1252-1470): off-topic messages fall to the
RAG chain; a confirmation commits (after the defensive re-check of the
stored flag); a change request edits or resets; everything else falls
to the RAG chain. -/
def awaitingFlow (env : Env) (pending : Option Draft) : TurnResult :=
  if isAboutOtherTopic env.message then
    ragResult pending
  else if is_confirmation_message env.message then
    if !storedAwaiting pending then
      confirmPromptResult env pending
    else
      commitResult env pending
  else if is_change_request env.message then
    changeResult env pending
  else
    ragResult pending

/-- The complete-draft flow (whatsapp_message.py lines 1175-1514):
validate the timeslot, recompute the awaiting flag, then branch on
question / awaiting / first-time confirmation. -/
def completeFlow (env : Env) (pending : Option Draft) : TurnResult :=
  if !(validate_booking_timeslot (erOf env pending).data.fields.timeslot).valid then
    timeslotInvalidResult env pending
  else if is_general_question env.message && awaitingOf env pending then
    ragResult pending
  else if awaitingOf env pending then
    awaitingFlow env pending
  else
    confirmPromptResult env pending

/-- Saving a still-incomplete draft and asking for the missing fields
(whatsapp_message.py lines 1516-1529). -/
def missingResult (env : Env) (pending : Option Draft) : TurnResult :=
  { saved := some (erOf env pending).data, sent := [.missingFieldsPrompt] }

/-- The extraction branch of the booking flow
(whatsapp_message.py lines 1153-1529). -/
def bookingFlow (env : Env) (pending : Option Draft) : TurnResult :=
  if (erOf env pending).is_complete then completeFlow env pending
  else missingResult env pending

/-- PRIORITY 3, the normal booking flow
(whatsapp_message.py lines 1124-1529). -/
def priority3 (env : Env) (pending : Option Draft) (confirmed : Bool) : TurnResult :=
  if is_general_question env.message && !env.wantsToBook && !env.hasSpecificDetails then
    ragResult pending
  else if env.wantsToBook || env.hasSpecificDetails || (pending.isSome && !confirmed) then
    bookingFlow env pending
  else
    ragResult pending

/-- The update-intent flow on a confirmed booking
(whatsapp_message.py lines 988-1122): with no fields supplied, ask what
to change; with an invalid updated timeslot, reject; otherwise show the
update confirmation and store the pending update fields. -/
def updateIntentFlow (env : Env) (pending : Option Draft) : TurnResult :=
  if env.updateDetect.updated_fields = ({} : FieldMap) then
    { saved := pending, sent := [.askWhatToUpdate] }
  else if env.updateDetect.updated_fields.timeslot.isSome &&
      !(validate_booking_timeslot
          (applyUpdates (pending.getD {}).fields env.updateDetect.updated_fields).timeslot).valid then
    { saved := pending
      sent := [.timeslotInvalid
                (validate_booking_timeslot
                  (applyUpdates (pending.getD {}).fields
                    env.updateDetect.updated_fields).timeslot).msg] }
  else
    { saved := some { pending.getD {} with
                      fields := applyUpdates (pending.getD {}).fields
                        env.updateDetect.updated_fields
                      awaiting_update_confirmation := true
                      pending_update_fields := some env.updateDetect.updated_fields }
      sent := [.updateConfirmPrompt] }

/-- PRIORITY 2 second half: update-intent detection on a confirmed
booking (whatsapp_message.py lines 985-1122), then `priority3`. -/
def afterAwaitUpd (env : Env) (pending : Option Draft) (confirmed : Bool) : TurnResult :=
  if confirmed && env.updateDetect.is_update then
    updateIntentFlow env pending
  else
    priority3 env pending confirmed

/-- The update-confirmation call and its outcome
(whatsapp_message.py lines 910-963): on success the merged update is
stored confirmed with the flags cleared; on failure the stored draft is
left untouched and an apologetic error is sent. -/
def updateCommitResult (env : Env) (pending : Option Draft) : TurnResult :=
  if env.updateApiOk then
    { updateCalled := true
      saved := some { pending.getD {} with
                      fields := applyUpdates (pending.getD {}).fields
                        ((pending.getD {}).pending_update_fields.getD {})
                      confirmed := true
                      awaiting_update_confirmation := false
                      pending_update_fields := none }
      sent := [.updateSuccess] }
  else
    { updateCalled := true, saved := pending, sent := [.updateError] }

/-- Reply handling while awaiting the yes/no of a proposed update
(whatsapp_message.py lines 891-983). -/
def awaitingUpdFlow (env : Env) (pending : Option Draft) (confirmed : Bool) : TurnResult :=
  if is_general_question env.message then
    afterAwaitUpd env pending confirmed
  else if is_confirmation_message env.message then
    updateCommitResult env pending
  else if is_change_request env.message then
    { saved := some { pending.getD {} with
                      awaiting_update_confirmation := false
                      pending_update_fields := none }
      sent := [.updateCancelledAck] }
  else
    { saved := pending, sent := [.updateReminder] }

/-- The cancellation call and its outcome (whatsapp_message.py lines
851-881): on success the pending data is cleared; on failure it is
left untouched and an apologetic error is sent. -/
def cancelResult (env : Env) (pending : Option Draft) : TurnResult :=
  if env.cancelApiOk then
    { cancelCalled := true, saved := none, sent := [.cancelSuccess] }
  else
    { cancelCalled := true, saved := pending, sent := [.cancelError] }

/-- One turn of `handle_text_message_ai` (whatsapp_message.py lines
818-1584), in the priority order of the source: cancel intent on any
pending data, the awaiting-update-confirmation reply handling, update
detection on a confirmed booking, the normal booking flow, then the RAG
fallthrough. -/
def runTurn (env : Env) : TurnResult :=
  if has_cancel_intent env.message && env.pending.isSome then
    cancelResult env env.pending
  else if (env.pending.map Draft.confirmed).getD false &&
      (env.pending.map Draft.awaiting_update_confirmation).getD false then
    awaitingUpdFlow env env.pending ((env.pending.map Draft.confirmed).getD false)
  else
    afterAwaitUpd env env.pending ((env.pending.map Draft.confirmed).getD false)

/-- The field map produced by one extraction pass over the stored
draft `d` with extraction oracles `llm` and `fb`. -/
def extractedFields (d : Draft) (llm : Option FieldMap) (fb : FieldMap) : FieldMap :=
  (extract_booking_details (some d) llm fb).data.fields

/-- The string-valued booking fields, as accessors. -/
def stringGetters : List (FieldMap → Option String) :=
  [FieldMap.customer_name, FieldMap.phone, FieldMap.outlet,
   FieldMap.booking_date, FieldMap.timeslot, FieldMap.treatment_type,
   FieldMap.preferred_masseur, FieldMap.third_party_voucher,
   FieldMap.using_package]

/-- The numeric booking fields, as accessors. -/
def natGetters : List (FieldMap → Option Nat) :=
  [FieldMap.pax, FieldMap.session]

/-- The numeric optional fields with their default values
(rag_chain.py lines 1504-1511). -/
def natOptional : List ((FieldMap → Option Nat) × Nat) :=
  [(FieldMap.pax, 1), (FieldMap.session, 90)]

/-- The string optional fields with their default values
(rag_chain.py lines 1514-1521). -/
def stringOptional : List ((FieldMap → Option String) × String) :=
  [(FieldMap.treatment_type, defaultTreatment), (FieldMap.using_package, "no")]

/-! ## Concrete data used to exercise the model -/

/-- A field map with every required field (and the defaulted optional
fields) supplied. -/
def sampleFields : FieldMap :=
  { customer_name := some "John", phone := some "60123456789",
    outlet := some "HealthLand KD", booking_date := some "2026-10-15",
    timeslot := some "14:00:00", pax := some 2,
    treatment_type := some "Thai Massage", session := some 90,
    using_package := some "no" }

/-- A complete draft stored without the awaiting flag. -/
def collectingDraft : Draft := { fields := sampleFields }

/-- A complete draft stored while awaiting confirmation. -/
def awaitingDraft : Draft := { fields := sampleFields, awaiting_confirmation := true }

/-- A committed draft awaiting the yes/no of a proposed update. -/
def confirmedUpdDraft : Draft :=
  { fields := sampleFields, confirmed := true, awaiting_update_confirmation := true,
    booking_reference := some "BKG1",
    pending_update_fields := some { timeslot := some "16:00:00" } }

/-! # Theorems -/

/-! ## Supporting lemmas -/

theorem dispatchNonTextLoop_eq_filterMap (l : List QMsg) :
    dispatchNonTextLoop l = l.filterMap nonTextHandler := by
  induction l with
  | nil => rfl
  | cons m rest ih =>
    simp only [dispatchNonTextLoop, List.filterMap_cons, ih]
    cases nonTextHandler m <;> simp

theorem runAlone_eq (m : Nat) (s : Debouncer.RState) :
    Debouncer.runAlone m s =
      if s.flag then { s with queue := s.queue ++ [m] }
      else { queue := s.queue ++ [m], flag := true, scheduled := s.scheduled + 1 } := by
  cases h : s.flag <;>
    simp [Debouncer.runAlone, Debouncer.stepThread, h]

theorem foldl_runAlone_flagged (ms : List Nat) (s : Debouncer.RState)
    (h : s.flag = true) :
    ms.foldl (fun s m => Debouncer.runAlone m s) s = { s with queue := s.queue ++ ms } := by
  induction ms generalizing s with
  | nil => simp
  | cons m rest ih =>
    rw [List.foldl_cons, runAlone_eq, if_pos h, ih _ (by simpa using h)]
    simp

theorem runSerial_exactly_once (ms : List Nat) (h : ms ≠ []) :
    Debouncer.runSerial ms = { queue := ms, flag := true, scheduled := 1 } := by
  cases ms with
  | nil => exact absurd rfl h
  | cons m rest =>
    show (m :: rest).foldl (fun s m => Debouncer.runAlone m s) {} = _
    rw [List.foldl_cons]
    have h1 : Debouncer.runAlone m {} =
        ({ queue := [m], flag := true, scheduled := 1 } : Debouncer.RState) := by
      rw [runAlone_eq]; rfl
    rw [h1, foldl_runAlone_flagged rest _ rfl]
    rfl

/-! ### Flag bookkeeping across the turn model

`flagsSpec` collects, for one `TurnResult`, which branch family can
have produced it: an external call flag is set only by the matching
call site, and the commit site is guarded by the stored
`awaiting_confirmation` flag and the confirmation classifier. -/

/-- The API-failure contract of one turn outcome, relative to the
stored data `pending`. -/
def apiFailSpec (env : Env) (pending : Option Draft) (r : TurnResult) : Prop :=
  (r.commitCalled = true → env.commitApiOk = false →
    r.saved = none ∧ r.sent = [.commitError]) ∧
  (r.cancelCalled = true → env.cancelApiOk = false →
    r.saved = pending ∧ r.sent = [.cancelError]) ∧
  (r.updateCalled = true → env.updateApiOk = false →
    r.saved = pending ∧ r.sent = [.updateError])

theorem awaitingFlow_commit_inv (env : Env) (pending : Option Draft)
    (h : (awaitingFlow env pending).commitCalled = true) :
    storedAwaiting pending = true ∧ is_confirmation_message env.message = true := by
  unfold awaitingFlow at h
  split_ifs at h with h1 h2 h3 h4 <;>
    simp_all [ragResult, confirmPromptResult, commitResult, changeResult,
      apply_ite TurnResult.commitCalled]

theorem completeFlow_commit_inv (env : Env) (pending : Option Draft)
    (h : (completeFlow env pending).commitCalled = true) :
    storedAwaiting pending = true ∧ is_confirmation_message env.message = true := by
  unfold completeFlow at h
  split_ifs at h
  all_goals first
    | exact awaitingFlow_commit_inv env pending h
    | simp_all [ragResult, timeslotInvalidResult, confirmPromptResult]

theorem priority3_commit_inv (env : Env) (pending : Option Draft) (confirmed : Bool)
    (h : (priority3 env pending confirmed).commitCalled = true) :
    storedAwaiting pending = true ∧ is_confirmation_message env.message = true := by
  unfold priority3 bookingFlow at h
  split_ifs at h
  all_goals first
    | exact completeFlow_commit_inv env pending h
    | simp_all [ragResult, missingResult]

theorem afterAwaitUpd_commit_inv (env : Env) (pending : Option Draft) (confirmed : Bool)
    (h : (afterAwaitUpd env pending confirmed).commitCalled = true) :
    storedAwaiting pending = true ∧ is_confirmation_message env.message = true := by
  unfold afterAwaitUpd updateIntentFlow at h
  split_ifs at h
  all_goals first
    | exact priority3_commit_inv env pending confirmed h
    | simp_all

theorem runTurn_commit_inv (env : Env) (h : (runTurn env).commitCalled = true) :
    (∃ d, env.pending = some d ∧ d.awaiting_confirmation = true) ∧
    is_confirmation_message env.message = true := by
  have key : storedAwaiting env.pending = true ∧
      is_confirmation_message env.message = true := by
    unfold runTurn awaitingUpdFlow at h
    split_ifs at h
    all_goals first
      | exact afterAwaitUpd_commit_inv env env.pending _ h
      | simp_all [cancelResult, updateCommitResult,
          apply_ite TurnResult.commitCalled]
  refine ⟨?_, key.2⟩
  have hs := key.1
  cases hp : env.pending with
  | none => rw [hp] at hs; exact absurd hs (by simp [storedAwaiting])
  | some d =>
    rw [hp] at hs
    exact ⟨d, rfl, by simpa [storedAwaiting] using hs⟩

theorem awaitingFlow_apiFail (env : Env) (pending : Option Draft) :
    apiFailSpec env pending (awaitingFlow env pending) := by
  unfold awaitingFlow
  split_ifs <;>
    simp_all [apiFailSpec, ragResult, confirmPromptResult, commitResult, changeResult,
      apply_ite TurnResult.commitCalled, apply_ite TurnResult.cancelCalled,
      apply_ite TurnResult.updateCalled, apply_ite TurnResult.saved,
      apply_ite TurnResult.sent]

theorem completeFlow_apiFail (env : Env) (pending : Option Draft) :
    apiFailSpec env pending (completeFlow env pending) := by
  unfold completeFlow
  split_ifs
  all_goals first
    | exact awaitingFlow_apiFail env pending
    | simp_all [apiFailSpec, ragResult, timeslotInvalidResult, confirmPromptResult]

theorem priority3_apiFail (env : Env) (pending : Option Draft) (confirmed : Bool) :
    apiFailSpec env pending (priority3 env pending confirmed) := by
  unfold priority3 bookingFlow
  split_ifs
  all_goals first
    | exact completeFlow_apiFail env pending
    | simp_all [apiFailSpec, ragResult, missingResult]

theorem afterAwaitUpd_apiFail (env : Env) (pending : Option Draft) (confirmed : Bool) :
    apiFailSpec env pending (afterAwaitUpd env pending confirmed) := by
  unfold afterAwaitUpd updateIntentFlow
  split_ifs
  all_goals first
    | exact priority3_apiFail env pending confirmed
    | simp_all [apiFailSpec]

theorem runTurn_apiFail (env : Env) : apiFailSpec env env.pending (runTurn env) := by
  unfold runTurn awaitingUpdFlow
  split_ifs
  all_goals first
    | exact afterAwaitUpd_apiFail env env.pending _
    | simp_all [apiFailSpec, cancelResult, updateCommitResult,
        apply_ite TurnResult.commitCalled, apply_ite TurnResult.cancelCalled,
        apply_ite TurnResult.updateCalled, apply_ite TurnResult.saved,
        apply_ite TurnResult.sent]

theorem awaitingFlow_no_cancel (env : Env) (pending : Option Draft) :
    (awaitingFlow env pending).cancelCalled = false := by
  unfold awaitingFlow
  split_ifs <;>
    simp_all [ragResult, confirmPromptResult, commitResult, changeResult,
      apply_ite TurnResult.cancelCalled]

theorem completeFlow_no_cancel (env : Env) (pending : Option Draft) :
    (completeFlow env pending).cancelCalled = false := by
  unfold completeFlow
  split_ifs
  all_goals first
    | exact awaitingFlow_no_cancel env pending
    | simp_all [ragResult, timeslotInvalidResult, confirmPromptResult]

theorem priority3_no_cancel (env : Env) (pending : Option Draft) (confirmed : Bool) :
    (priority3 env pending confirmed).cancelCalled = false := by
  unfold priority3 bookingFlow
  split_ifs
  all_goals first
    | exact completeFlow_no_cancel env pending
    | simp_all [ragResult, missingResult]

theorem afterAwaitUpd_no_cancel (env : Env) (pending : Option Draft) (confirmed : Bool) :
    (afterAwaitUpd env pending confirmed).cancelCalled = false := by
  unfold afterAwaitUpd updateIntentFlow
  split_ifs
  all_goals first
    | exact priority3_no_cancel env pending confirmed
    | simp_all

/-! ## C1 — debounce scheduling under concurrency -/

/-- C1: the enqueue guard is a plain read followed by a plain write, so
two concurrent `queue_message` calls for the same sender can interleave
so that both read the guard unset: the schedule below (each thread
reads the queue, each writes it back, each reads the guard, each sets
it) ends with two deferred `process_queued_messages` jobs scheduled and
with the first message overwritten — the batch holds only message 2.
A serial execution of the same two calls schedules once and keeps both
messages. -/
theorem queue_message_interleaving_double_schedules :
    (Debouncer.run2 1 2 [false, true, false, true, false, true, false, true]).sh =
      { queue := [2], flag := true, scheduled := 2 } ∧
    Debouncer.runSerial [1, 2] = { queue := [1, 2], flag := true, scheduled := 1 } := by
  exact ⟨rfl, rfl⟩

/-! ## C8 — batch dispatch -/

/-- C8 counterexample: a batch holding one `button` message that is not
a reply is dispatched to no handler at all, so it is not true that
every non-text interactive message is replayed through its own
handler. -/
theorem non_reply_button_not_replayed :
    process_batch false [{ content_type := "button", message := "Yes" }] = [] := by
  rfl

/-- C8 (amended): on the non-frontdesk path, all text messages of the
batch — in arrival order, whether or not contiguous — are concatenated
with newline separators into one input for the text handlers; `flow`
messages are each replayed through the interactive handler and reply
`button` messages through the template-reply handler, individually and
in arrival order; button messages that are not replies, and other
non-text kinds, are not replayed. -/
theorem process_batch_meets_dispatch_contract (msgs : List QMsg) :
    process_batch false msgs = dispatchContract msgs := by
  have hmap : ∀ (l : List QMsg), (l.map QMsg.message).isEmpty = l.isEmpty := by
    intro l; cases l <;> rfl
  cases msgs with
  | nil => rfl
  | cons m rest =>
    simp only [process_batch, dispatchContract, dispatchNonTextLoop_eq_filterMap, hmap,
      List.isEmpty_cons, Bool.false_eq_true, if_false]

/-! ## C9 — timeslot validator -/

/-- C9: with the 11:00-23:30 inclusive window, `09:00:00` is invalid
with a disambiguation message suggesting `09:00 PM` (21:00 is
in-window), `14:00:00` is valid, `23:45:00` is invalid with the generic
out-of-hours message and no PM suggestion, and every well-formed
in-window time is valid with an empty message. -/
theorem validate_booking_timeslot_cases :
    validate_booking_timeslot (some "09:00:00") = ⟨false, .suggestPM "09:00 PM"⟩ ∧
    validate_booking_timeslot (some "14:00:00") = ⟨true, .empty⟩ ∧
    validate_booking_timeslot (some "23:45:00") = ⟨false, .outOfHours "11:45 PM"⟩ ∧
    ∀ (s : String) (h m sec : Nat), parseTimeHMS s = some (h, m, sec) →
      timeBefore h m sec 11 0 0 = false → timeBefore 23 30 0 h m sec = false →
      validate_booking_timeslot (some s) = ⟨true, .empty⟩ := by
  refine ⟨by decide, by decide, by decide, ?_⟩
  intro s h m sec hp h1 h2
  have hs : ¬ s = "" := by
    intro he
    rw [he, show parseTimeHMS "" = none from rfl] at hp
    exact absurd hp (by simp)
  simp only [validate_booking_timeslot, if_neg hs, hp, h1, h2, Bool.or_self]
  rfl

/-- C9 witness: an explicit in-window time accepted through the
universal part of the theorem. -/
theorem validate_booking_timeslot_cases_witness :
    parseTimeHMS "12:34:56" = some (12, 34, 56) ∧
    timeBefore 12 34 56 11 0 0 = false ∧
    timeBefore 23 30 0 12 34 56 = false ∧
    validate_booking_timeslot (some "12:34:56") = ⟨true, .empty⟩ := by
  refine ⟨by decide, by decide, by decide, ?_⟩
  exact validate_booking_timeslot_cases.2.2.2 "12:34:56" 12 34 56 (by decide)
    (by decide) (by decide)

/-! ### Merge and default lemmas -/

theorem truthy_pax (x : Option Nat) :
    truthyN (if truthyN x then x else some 1) = true := by
  cases h : truthyN x
  · simp [h, truthyN]
  · simpa [h] using h

theorem truthy_session (x : Option Nat) :
    truthyN (if truthyN x then x else some 90) = true := by
  cases h : truthyN x
  · simp [h, truthyN]
  · simpa [h] using h

theorem truthy_treatment (x : Option String) :
    truthyS (if truthyS x then x else some defaultTreatment) = true := by
  cases h : truthyS x
  · simp [h, truthyS, defaultTreatment]
  · simpa [h] using h

theorem truthy_package (x : Option String) :
    truthyS (if truthyS x then x else some "no") = true := by
  cases h : truthyS x
  · simp [h, truthyS]
  · simpa [h] using h

theorem pickLlmS_pres (b v : Option String) (hb : truthyS b = true) :
    pickLlmS b v = b ∨
    (truthyS v = true ∧ v ≠ some "null" ∧ pickLlmS b v = v) := by
  unfold pickLlmS
  split_ifs with h
  · right
    simp only [Bool.and_eq_true, decide_eq_true_eq] at h
    exact ⟨h.1, h.2, rfl⟩
  · left; rfl

theorem pickLlmS_truthy (b v : Option String) (hb : truthyS b = true) :
    truthyS (pickLlmS b v) = true := by
  rcases pickLlmS_pres b v hb with h | ⟨h1, _, h3⟩
  · rw [h]; exact hb
  · rw [h3]; exact h1

theorem pickLlmN_pres (b v : Option Nat) (hb : truthyN b = true) :
    pickLlmN b v = b ∨ (truthyN v = true ∧ pickLlmN b v = v) := by
  unfold pickLlmN
  split_ifs with h
  · exact Or.inr ⟨h, rfl⟩
  · exact Or.inl rfl

theorem pickLlmN_truthy (b v : Option Nat) (hb : truthyN b = true) :
    truthyN (pickLlmN b v) = true := by
  rcases pickLlmN_pres b v hb with h | ⟨h1, h2⟩
  · rw [h]; exact hb
  · rw [h2]; exact h1

theorem pickFbS_pres (b v : Option String) (hb : truthyS b = true) :
    pickFbS b v = b := by
  unfold pickFbS
  split_ifs with h
  · exfalso
    simp only [Bool.and_eq_true, decide_eq_true_eq] at h
    rw [h.1] at hb
    exact absurd hb (by simp [truthyS])
  · rfl

theorem pickFbN_pres (b v : Option Nat) (hb : truthyN b = true) :
    pickFbN b v = b := by
  unfold pickFbN
  split_ifs with h
  · exfalso
    simp only [Bool.and_eq_true, decide_eq_true_eq] at h
    rw [h.1] at hb
    exact absurd hb (by simp [truthyN])
  · rfl

theorem llm_chain_dfltS (b lv : Option String) (dv : String) (hb : truthyS b = true) :
    (if truthyS (pickLlmS b lv) then pickLlmS b lv else some dv) = b ∨
    (truthyS lv = true ∧ lv ≠ some "null" ∧
      (if truthyS (pickLlmS b lv) then pickLlmS b lv else some dv) = lv) := by
  rw [if_pos (pickLlmS_truthy b lv hb)]
  exact pickLlmS_pres b lv hb

theorem llm_chain_dfltN (b lv : Option Nat) (dv : Nat) (hb : truthyN b = true) :
    (if truthyN (pickLlmN b lv) then pickLlmN b lv else some dv) = b ∨
    (truthyN lv = true ∧
      (if truthyN (pickLlmN b lv) then pickLlmN b lv else some dv) = lv) := by
  rw [if_pos (pickLlmN_truthy b lv hb)]
  exact pickLlmN_pres b lv hb

/-! ## C4 — when defaults are applied -/

/-- C4 counterexample: an extraction pass over empty data (empty
extractor output) returns a draft whose required fields are all
missing, yet the optional fields already carry their defaults. -/
theorem defaults_despite_missing_required :
    (extract_booking_details none (some {}) {}).is_complete = false ∧
    (extract_booking_details none (some {}) {}).missing_fields ≠ [] ∧
    (extract_booking_details none (some {}) {}).data.fields.pax = some 1 ∧
    (extract_booking_details none (some {}) {}).data.fields.session = some 90 ∧
    (extract_booking_details none (some {}) {}).data.fields.treatment_type =
      some defaultTreatment ∧
    (extract_booking_details none (some {}) {}).data.fields.using_package = some "no" := by
  decide

/-- C4 (amended): on every extraction pass the defaults for pax,
session, treatment_type and using_package are applied unconditionally —
regardless of whether the required fields are present — whenever the
field is absent or empty after the merge.  For each optional field:
the value after the pass is always truthy; a field that neither the
prior draft nor the extractor supplied holds exactly its default; and a
supplied (truthy) optional value is never replaced by its default —
a truthy LLM value (not the literal "null") survives, a truthy fallback
value over an absent prior key survives, and a truthy prior value is
kept or replaced only by a truthy LLM value, never by the default. -/
theorem defaults_applied_every_pass (existing : Option Draft) (llm : Option FieldMap)
    (fb : FieldMap) :
    (∀ p ∈ natOptional,
      truthyN (p.1 (extract_booking_details existing llm fb).data.fields) = true ∧
      (truthyN (p.1 (existing.getD {}).fields) = false →
        truthyN (p.1 (llm.getD fb)) = false →
        p.1 (extract_booking_details existing llm fb).data.fields = some p.2) ∧
      (∀ l, llm = some l → truthyN (p.1 l) = true →
        p.1 (extract_booking_details existing llm fb).data.fields = p.1 l) ∧
      (llm = none → p.1 (existing.getD {}).fields = none → truthyN (p.1 fb) = true →
        p.1 (extract_booking_details existing llm fb).data.fields = p.1 fb) ∧
      (truthyN (p.1 (existing.getD {}).fields) = true →
        p.1 (extract_booking_details existing llm fb).data.fields =
          p.1 (existing.getD {}).fields ∨
        ∃ l, llm = some l ∧ truthyN (p.1 l) = true ∧
          p.1 (extract_booking_details existing llm fb).data.fields = p.1 l)) ∧
    (∀ p ∈ stringOptional,
      truthyS (p.1 (extract_booking_details existing llm fb).data.fields) = true ∧
      (truthyS (p.1 (existing.getD {}).fields) = false →
        truthyS (p.1 (llm.getD fb)) = false →
        p.1 (extract_booking_details existing llm fb).data.fields = some p.2) ∧
      (∀ l, llm = some l → truthyS (p.1 l) = true → p.1 l ≠ some "null" →
        p.1 (extract_booking_details existing llm fb).data.fields = p.1 l) ∧
      (llm = none → p.1 (existing.getD {}).fields = none → truthyS (p.1 fb) = true →
        p.1 (extract_booking_details existing llm fb).data.fields = p.1 fb) ∧
      (truthyS (p.1 (existing.getD {}).fields) = true →
        p.1 (extract_booking_details existing llm fb).data.fields =
          p.1 (existing.getD {}).fields ∨
        ∃ l, llm = some l ∧ truthyS (p.1 l) = true ∧ p.1 l ≠ some "null" ∧
          p.1 (extract_booking_details existing llm fb).data.fields = p.1 l)) := by
  constructor
  · intro p hp
    simp only [natOptional, List.mem_cons, List.not_mem_nil, or_false] at hp
    rcases hp with rfl | rfl <;> dsimp only <;> refine ⟨?_, ?_, ?_, ?_, ?_⟩
    all_goals first
      | -- always truthy after the pass
        (cases llm <;>
          simp [extract_booking_details, mergeLlm, mergeFallback, applyDefaults,
            truthy_pax, truthy_session]
         done)
      | -- never supplied: exactly the default
        (intro h1 h2
         cases llm <;>
           simp only [Option.getD_some, Option.getD_none] at h2 <;>
           simp [extract_booking_details, mergeLlm, mergeFallback, applyDefaults,
             pickLlmN, pickFbN, h1, h2]
         done)
      | -- a truthy LLM value survives
        (intro l hl htr
         subst hl
         simp [extract_booking_details, mergeLlm, applyDefaults, pickLlmN, htr]
         done)
      | -- a truthy fallback value over an absent prior key survives
        (intro hn hb htr
         subst hn
         simp [extract_booking_details, mergeFallback, applyDefaults, pickFbN, hb, htr]
         done)
      | -- a truthy prior value is never replaced by the default
        (intro htr
         cases llm with
         | none =>
           left
           simp [extract_booking_details, mergeFallback, applyDefaults, pickFbN_pres, htr]
         | some l =>
           simp only [extract_booking_details, mergeLlm, applyDefaults,
             Option.some.injEq, exists_eq_left']
           exact llm_chain_dfltN _ _ _ htr)
  · intro p hp
    simp only [stringOptional, List.mem_cons, List.not_mem_nil, or_false] at hp
    rcases hp with rfl | rfl <;> dsimp only <;> refine ⟨?_, ?_, ?_, ?_, ?_⟩
    all_goals first
      | (cases llm <;>
          simp [extract_booking_details, mergeLlm, mergeFallback, applyDefaults,
            truthy_treatment, truthy_package]
         done)
      | (intro h1 h2
         cases llm <;>
           simp only [Option.getD_some, Option.getD_none] at h2 <;>
           simp [extract_booking_details, mergeLlm, mergeFallback, applyDefaults,
             pickLlmS, pickFbS, h1, h2]
         done)
      | (intro l hl htr hnull
         subst hl
         simp [extract_booking_details, mergeLlm, applyDefaults, pickLlmS, htr, hnull]
         done)
      | (intro hn hb htr
         subst hn
         simp [extract_booking_details, mergeFallback, applyDefaults, pickFbS, hb, htr]
         done)
      | (intro htr
         cases llm with
         | none =>
           left
           simp [extract_booking_details, mergeFallback, applyDefaults, pickFbS_pres, htr]
         | some l =>
           simp only [extract_booking_details, mergeLlm, applyDefaults,
             Option.some.injEq, exists_eq_left']
           exact llm_chain_dfltS _ _ _ htr)

/-- C4 witness: on the empty store an empty extractor result yields the
default pax 1, while an extractor-supplied pax 2 (with absent prior
value) survives the default step; a truthy prior treatment_type is not
replaced by its default. -/
theorem defaults_applied_every_pass_witness :
    truthyN (extract_booking_details none (some {}) {}).data.fields.pax = true ∧
    (extract_booking_details none (some {}) {}).data.fields.pax = some 1 ∧
    (extract_booking_details none (some { pax := some 2 }) {}).data.fields.pax = some 2 ∧
    (extract_booking_details none none { pax := some 3 }).data.fields.pax = some 3 ∧
    ((extract_booking_details (some collectingDraft) (some {}) {}).data.fields.treatment_type =
        collectingDraft.fields.treatment_type ∨
     ∃ l, (some ({} : FieldMap) : Option FieldMap) = some l ∧
       truthyS l.treatment_type = true ∧ l.treatment_type ≠ some "null" ∧
       (extract_booking_details (some collectingDraft) (some {}) {}).data.fields.treatment_type =
         l.treatment_type) := by
  refine ⟨?_, ?_, ?_, ?_, ?_⟩
  · exact ((defaults_applied_every_pass none (some {}) {}).1
      (FieldMap.pax, 1) (by simp [natOptional])).1
  · exact ((defaults_applied_every_pass none (some {}) {}).1
      (FieldMap.pax, 1) (by simp [natOptional])).2.1 (by decide) (by decide)
  · exact ((defaults_applied_every_pass none (some { pax := some 2 }) {}).1
      (FieldMap.pax, 1) (by simp [natOptional])).2.2.1 { pax := some 2 } rfl (by decide)
  · exact ((defaults_applied_every_pass none none { pax := some 3 }).1
      (FieldMap.pax, 1) (by simp [natOptional])).2.2.2.1 rfl (by decide) (by decide)
  · exact ((defaults_applied_every_pass (some collectingDraft) (some {}) {}).2
      (FieldMap.treatment_type, defaultTreatment)
      (by simp [stringOptional])).2.2.2.2 (by decide)

/-! ## C5 — merge never overwrites user-supplied values -/

/-- C5: for every extraction pass over a stored draft, a field holding
a truthy (user-supplied) value is never overwritten by a null/empty
extractor result or by a default: it either keeps its value or is
replaced by a truthy, non-"null" value of the LLM extractor; and
applying the default step twice is the same as applying it once. -/
theorem merge_never_overwrites :
    (∀ (d : Draft) (llm : Option FieldMap) (fb : FieldMap),
      (∀ get ∈ stringGetters, truthyS (get d.fields) = true →
        get (extractedFields d llm fb) = get d.fields ∨
        ∃ l, llm = some l ∧ truthyS (get l) = true ∧ get l ≠ some "null" ∧
          get (extractedFields d llm fb) = get l) ∧
      (∀ get ∈ natGetters, truthyN (get d.fields) = true →
        get (extractedFields d llm fb) = get d.fields ∨
        ∃ l, llm = some l ∧ truthyN (get l) = true ∧
          get (extractedFields d llm fb) = get l)) ∧
    (∀ m : FieldMap, applyDefaults (applyDefaults m) = applyDefaults m) := by
  refine ⟨fun d llm fb => ⟨?_, ?_⟩, ?_⟩
  · intro get hget htr
    simp only [stringGetters, List.mem_cons, List.not_mem_nil, or_false] at hget
    rcases hget with rfl | rfl | rfl | rfl | rfl | rfl | rfl | rfl | rfl <;>
      cases llm with
      | none =>
        left
        simp [extractedFields, extract_booking_details, mergeFallback, applyDefaults,
          pickFbS_pres, htr]
      | some l =>
        simp only [extractedFields, extract_booking_details, mergeLlm, applyDefaults,
          Option.some.injEq, exists_eq_left']
        first
          | exact pickLlmS_pres _ _ htr
          | exact llm_chain_dfltS _ _ _ htr
  · intro get hget htr
    simp only [natGetters, List.mem_cons, List.not_mem_nil, or_false] at hget
    rcases hget with rfl | rfl <;>
      cases llm with
      | none =>
        left
        simp [extractedFields, extract_booking_details, mergeFallback, applyDefaults,
          pickFbN_pres, htr]
      | some l =>
        simp only [extractedFields, extract_booking_details, mergeLlm, applyDefaults,
          Option.some.injEq, exists_eq_left']
        exact llm_chain_dfltN _ _ _ htr
  · intro m
    simp [applyDefaults, truthy_pax, truthy_session, truthy_treatment, truthy_package]

/-- C5 witness: a truthy customer name survives an empty extractor
pass, and the default step is idempotent on the empty map. -/
theorem merge_never_overwrites_witness :
    (FieldMap.customer_name ∈ stringGetters ∧
     truthyS (FieldMap.customer_name collectingDraft.fields) = true) ∧
    (FieldMap.customer_name (extractedFields collectingDraft (some {}) {}) =
      FieldMap.customer_name collectingDraft.fields ∨
     ∃ l, (some ({} : FieldMap) : Option FieldMap) = some l ∧
       truthyS (FieldMap.customer_name l) = true ∧
       FieldMap.customer_name l ≠ some "null" ∧
       FieldMap.customer_name (extractedFields collectingDraft (some {}) {}) =
         FieldMap.customer_name l) ∧
    applyDefaults (applyDefaults {}) = applyDefaults ({} : FieldMap) := by
  refine ⟨⟨by simp [stringGetters], by decide⟩, ?_, merge_never_overwrites.2 {}⟩
  exact (merge_never_overwrites.1 collectingDraft (some {}) {}).1
    FieldMap.customer_name (by simp [stringGetters]) (by decide)

/-! ## C2 — commit requires a prior awaiting-confirmation read -/

/-- C2: the booking-commit call is issued only when the pending data
read at the start of the turn carried `awaiting_confirmation = true`;
and on a turn whose stored data does not show the flag, a confirmation
message does not commit — the engine re-shows the confirmation prompt
instead. -/
theorem commit_only_with_prior_awaiting :
    (∀ env : Env, (runTurn env).commitCalled = true →
      ∃ d, env.pending = some d ∧ d.awaiting_confirmation = true) ∧
    (∀ (env : Env) (d : Draft), env.pending = some d →
      d.awaiting_confirmation = false → d.confirmed = false →
      has_cancel_intent env.message = false →
      is_general_question env.message = false →
      is_confirmation_message env.message = true →
      (extract_booking_details (some d) env.llm env.fb).is_complete = true →
      (validate_booking_timeslot
        (extract_booking_details (some d) env.llm env.fb).data.fields.timeslot).valid = true →
      (runTurn env).commitCalled = false ∧ (runTurn env).sent = [.confirmPrompt]) := by
  constructor
  · exact fun env h => (runTurn_commit_inv env h).1
  · intro env d hp ha hcf hcan hq _hconf hcomp hv
    simp only [runTurn, awaitingUpdFlow, afterAwaitUpd, priority3, bookingFlow, completeFlow,
      confirmPromptResult, ragResult, erOf, storedAwaiting, awaitingOf, bookingChanged,
      hp, ha, hcf, hcan, hq, hcomp, hv, Option.map_some', Option.getD_some,
      Option.isSome_some, Bool.false_and, Bool.and_false, Bool.and_true, Bool.true_and,
      Bool.false_eq_true, if_false, Bool.not_false, Bool.not_true, Bool.false_or,
      Bool.or_false, Bool.or_true, Bool.true_or, if_true]
    exact ⟨trivial, trivial⟩

/-- C2 witness: a commit happening from an awaiting draft, and a
confirmation message on a complete draft without the flag only
re-showing the prompt. -/
theorem commit_only_with_prior_awaiting_witness :
    (∃ d, ({ pending := some awaitingDraft, message := "yes",
             llm := some {} } : Env).pending = some d ∧
      d.awaiting_confirmation = true) ∧
    ((runTurn { pending := some collectingDraft, message := "yes",
                llm := some {} }).commitCalled = false ∧
     (runTurn { pending := some collectingDraft, message := "yes",
                llm := some {} }).sent = [.confirmPrompt]) := by
  constructor
  · exact commit_only_with_prior_awaiting.1
      { pending := some awaitingDraft, message := "yes", llm := some {} } (by decide)
  · exact commit_only_with_prior_awaiting.2
      { pending := some collectingDraft, message := "yes", llm := some {} }
      collectingDraft rfl (by decide) (by decide) (by decide) (by decide) (by decide)
      (by decide) (by decide)

/-! ## C3 — cancellation path and confirmed bookings -/

/-- C3 counterexample: a cancel-keyword turn with an unconfirmed draft
(awaiting confirmation, `confirmed = False`) still takes the
cancellation path: the external cancel call is made, the draft is
cleared and the cancellation confirmation is sent. -/
theorem cancel_fires_on_unconfirmed_draft :
    runTurn { pending := some awaitingDraft, message := "cancel" } =
      { cancelCalled := true, saved := none, sent := [.cancelSuccess] } ∧
    awaitingDraft.confirmed = false := by
  exact ⟨by decide, by decide⟩

/-- C3 (amended): the cancellation path is taken exactly when the
message matches a cancel keyword and any pending data exists for the
sender — whether or not the stored booking is confirmed. -/
theorem cancel_iff_keyword_and_pending (env : Env) :
    (runTurn env).cancelCalled = true ↔
      (has_cancel_intent env.message = true ∧ env.pending.isSome = true) := by
  constructor
  · intro h
    unfold runTurn awaitingUpdFlow at h
    split_ifs at h with h1 h2 h3 h4
    · simpa [Bool.and_eq_true] using h1
    all_goals first
      | (rw [afterAwaitUpd_no_cancel] at h; exact absurd h (by simp))
      | simp_all [updateCommitResult, apply_ite TurnResult.cancelCalled]
  · intro hc
    unfold runTurn
    rw [if_pos (by simp [hc.1, hc.2])]
    unfold cancelResult
    split <;> rfl

/-- C3 witness for the amended characterization. -/
theorem cancel_iff_keyword_and_pending_witness :
    (runTurn { pending := some awaitingDraft, message := "cancel",
               cancelApiOk := false }).cancelCalled = true := by
  exact (cancel_iff_keyword_and_pending
    { pending := some awaitingDraft, message := "cancel", cancelApiOk := false }).mpr
    ⟨by decide, by decide⟩

/-! ## C6 — API failure handling -/

/-- C6: on a booking-commit failure the pending draft is cleared and an
apologetic error is sent; on a cancel failure or an update failure the
stored data is left exactly as it was (the cancel path clears only
after a successful cancel, the update path persists only after a
successful update), again with an apologetic error. -/
theorem api_failure_asymmetric_state (env : Env) :
    ((runTurn env).commitCalled = true → env.commitApiOk = false →
      (runTurn env).saved = none ∧ (runTurn env).sent = [.commitError]) ∧
    ((runTurn env).cancelCalled = true → env.cancelApiOk = false →
      (runTurn env).saved = env.pending ∧ (runTurn env).sent = [.cancelError]) ∧
    ((runTurn env).updateCalled = true → env.updateApiOk = false →
      (runTurn env).saved = env.pending ∧ (runTurn env).sent = [.updateError]) :=
  runTurn_apiFail env

/-- C6 witness: concrete failing commit, cancel and update turns. -/
theorem api_failure_asymmetric_state_witness :
    ((runTurn { pending := some awaitingDraft, message := "yes", llm := some {},
                commitApiOk := false }).saved = none ∧
     (runTurn { pending := some awaitingDraft, message := "yes", llm := some {},
                commitApiOk := false }).sent = [.commitError]) ∧
    ((runTurn { pending := some collectingDraft, message := "cancel",
                cancelApiOk := false }).saved = some collectingDraft ∧
     (runTurn { pending := some collectingDraft, message := "cancel",
                cancelApiOk := false }).sent = [.cancelError]) ∧
    ((runTurn { pending := some confirmedUpdDraft, message := "yes",
                updateApiOk := false }).saved = some confirmedUpdDraft ∧
     (runTurn { pending := some confirmedUpdDraft, message := "yes",
                updateApiOk := false }).sent = [.updateError]) := by
  refine ⟨?_, ?_, ?_⟩
  · exact (api_failure_asymmetric_state
      { pending := some awaitingDraft, message := "yes", llm := some {},
        commitApiOk := false }).1 (by decide) rfl
  · exact (api_failure_asymmetric_state
      { pending := some collectingDraft, message := "cancel",
        cancelApiOk := false }).2.1 (by decide) rfl
  · exact (api_failure_asymmetric_state
      { pending := some confirmedUpdDraft, message := "yes",
        updateApiOk := false }).2.2 (by decide) rfl

/-! ## C7 — a changed draft forces fresh confirmation -/

/-- C7: on a turn processed while the stored draft carries
`awaiting_confirmation = true`, if any of booking_date, timeslot,
outlet, pax, treatment_type or session of the newly merged draft
differs from the stored value, the flag is reset, no commit happens
this turn, and a fresh confirmation prompt is shown and stored with
the flag set again. -/
theorem changed_draft_forces_fresh_confirmation (env : Env) (d : Draft)
    (hp : env.pending = some d)
    (ha : d.awaiting_confirmation = true) (hcf : d.confirmed = false)
    (hcan : has_cancel_intent env.message = false)
    (hq : is_general_question env.message = false)
    (hcomp : (extract_booking_details (some d) env.llm env.fb).is_complete = true)
    (hv : (validate_booking_timeslot
      (extract_booking_details (some d) env.llm env.fb).data.fields.timeslot).valid = true)
    (hch : keyFieldsChanged d.fields
      (extract_booking_details (some d) env.llm env.fb).data.fields = true) :
    (runTurn env).commitCalled = false ∧ (runTurn env).sent = [.confirmPrompt] ∧
    (runTurn env).saved =
      some { (extract_booking_details (some d) env.llm env.fb).data with
             awaiting_confirmation := true } := by
  simp only [runTurn, awaitingUpdFlow, afterAwaitUpd, priority3, bookingFlow, completeFlow,
    confirmPromptResult, ragResult, erOf, storedAwaiting, awaitingOf, bookingChanged,
    hp, ha, hcf, hcan, hq, hcomp, hv, hch, Option.map_some', Option.getD_some,
    Option.isSome_some, Bool.false_and, Bool.and_false, Bool.and_true, Bool.true_and,
    Bool.false_eq_true, if_false, Bool.not_false, Bool.not_true, Bool.false_or,
    Bool.or_false, Bool.or_true, Bool.true_or, if_true]
  exact ⟨trivial, trivial, trivial⟩

/-- C7 witness: a turn that changes the timeslot while awaiting
confirmation re-shows the prompt and does not commit. -/
theorem changed_draft_forces_fresh_confirmation_witness :
    (runTurn { pending := some awaitingDraft, message := "yes",
               llm := some { timeslot := some "15:00:00" } }).commitCalled = false ∧
    (runTurn { pending := some awaitingDraft, message := "yes",
               llm := some { timeslot := some "15:00:00" } }).sent = [.confirmPrompt] := by
  have h := changed_draft_forces_fresh_confirmation
    { pending := some awaitingDraft, message := "yes",
      llm := some { timeslot := some "15:00:00" } }
    awaitingDraft rfl (by decide) (by decide) (by decide) (by decide) (by decide)
    (by decide) (by decide)
  exact ⟨h.1, h.2.1⟩

/-! ## C10 — long messages are never confirmations -/

/-- C10: a message whose lowercased, stripped form is longer than 30
characters and is not one of the fixed keywords is classified neither
as a confirmation nor as a change request, and consequently no turn
carrying such a (coalesced) message can trigger the booking-commit
call through the confirmation branch. -/
theorem long_message_never_confirms (message : String)
    (hlen : 30 < (lowerTrim message).length)
    (hc1 : lowerTrim message ∉ confirmationKeywords)
    (hc2 : lowerTrim message ∉ changeKeywords) :
    is_confirmation_message message = false ∧
    is_change_request message = false ∧
    ∀ env : Env, env.message = message → (runTurn env).commitCalled = false := by
  have hconf : is_confirmation_message message = false := by
    simp only [is_confirmation_message]
    rw [if_neg hc1, if_neg (by omega)]
  have hchg : is_change_request message = false := by
    simp only [is_change_request]
    rw [if_neg hc2, if_neg (by omega)]
  refine ⟨hconf, hchg, ?_⟩
  intro env he
  cases hcc : (runTurn env).commitCalled with
  | false => rfl
  | true =>
    have h2 := (runTurn_commit_inv env hcc).2
    rw [he, hconf] at h2
    exact absurd h2 (by simp)

/-- C10 witness: a 35-character message. -/
theorem long_message_never_confirms_witness :
    30 < (lowerTrim "aaaaaaaaaaaaaaaaaaaaaaaaaaaaaaaaaaa").length ∧
    is_confirmation_message "aaaaaaaaaaaaaaaaaaaaaaaaaaaaaaaaaaa" = false ∧
    (runTurn { pending := some awaitingDraft,
               message := "aaaaaaaaaaaaaaaaaaaaaaaaaaaaaaaaaaa" }).commitCalled = false := by
  have h := long_message_never_confirms "aaaaaaaaaaaaaaaaaaaaaaaaaaaaaaaaaaa"
    (by decide) (by decide) (by decide)
  exact ⟨by decide, h.1, h.2.2
    { pending := some awaitingDraft, message := "aaaaaaaaaaaaaaaaaaaaaaaaaaaaaaaaaaa" } rfl⟩

end FrappeWhatsapp
